import Mathlib

/-!
Verification development for the weather-ingestion pipeline
(`fetch_weather_data.py`): a shallow embedding of the data model and the
operations `fetch_current_weather`, `create_weather_table`,
`store_weather_data` and `main`, followed by theorems about the pipeline.

Numeric API values and coordinates are embedded as `Rat` (the script never
does float arithmetic: values are only passed through, compared, or coerced
to null).  The SQLite table is embedded as an explicit list of rows plus an
optional schema; the environment (network results, ingestion clock, storage
faults, injected unexpected exceptions) is passed in explicitly.
-/

namespace Weather

/-! ## JSON values and coercions -/

/-- A JSON field value as it arrives in the `current_weather` payload. -/
inductive Json where
  | num (q : Rat)
  | str (s : String)
  | null
deriving DecidableEq, Repr

/-- Calendar datetime with seconds precision, the parse result of the
observation's ISO-8601 time string. -/
structure DateTime where
  year : Nat
  month : Nat
  day : Nat
  hour : Nat
  minute : Nat
  second : Nat
deriving DecidableEq, Repr

def isLeap (y : Nat) : Bool :=
  (y % 4 == 0 && y % 100 != 0) || y % 400 == 0

def daysInMonth (y m : Nat) : Nat :=
  if m = 2 then (if isLeap y then 29 else 28)
  else if m = 4 ∨ m = 6 ∨ m = 9 ∨ m = 11 then 30
  else 31

def mkDateTime (y mo d h mi s : Nat) : Option DateTime :=
  if 1 ≤ mo ∧ mo ≤ 12 ∧ 1 ≤ d ∧ d ≤ daysInMonth y mo ∧ h < 24 ∧ mi < 60 ∧ s < 60 then
    some ⟨y, mo, d, h, mi, s⟩
  else none

/-- Split a character list at every occurrence of the separator (the
splitting primitive the parsers below use; always returns at least one
piece). -/
def splitOnChar (c : Char) : List Char → List (List Char)
  | [] => [[]]
  | x :: xs =>
    match splitOnChar c xs with
    | [] => if x = c then [[], []] else [[x]]
    | h :: t => if x = c then [] :: h :: t else (x :: h) :: t

def digitsToNat (cs : List Char) : Nat :=
  cs.foldl (fun acc c => acc * 10 + (c.toNat - 48)) 0

/-- Parse a nonempty all-digit character list as a natural number. -/
def parseDigits (cs : List Char) : Option Nat :=
  if cs ≠ [] ∧ cs.all Char.isDigit then some (digitsToNat cs) else none

/-- Modelled from the spec: `pd.to_datetime(-, errors="coerce")` applied to
the observation's ISO-8601 time string (`"YYYY-MM-DDTHH:MM"`, optionally with
seconds); unparseable input becomes null (`NaT`). -/
def parseDateTime (s : String) : Option DateTime :=
  match splitOnChar 'T' s.data with
  | [d, t] =>
    match splitOnChar '-' d, splitOnChar ':' t with
    | [ys, ms, ds], [hs, mins] =>
      match parseDigits ys, parseDigits ms, parseDigits ds, parseDigits hs,
          parseDigits mins with
      | some y, some mo, some dd, some h, some mi => mkDateTime y mo dd h mi 0
      | _, _, _, _, _ => none
    | [ys, ms, ds], [hs, mins, ss] =>
      match parseDigits ys, parseDigits ms, parseDigits ds, parseDigits hs,
          parseDigits mins, parseDigits ss with
      | some y, some mo, some dd, some h, some mi, some sec => mkDateTime y mo dd h mi sec
      | _, _, _, _, _, _ => none
    | _, _ => none
  | _ => none

/-- Decimal numeral parser: the string inputs accepted by `pd.to_numeric`. -/
def parseRat (s : String) : Option Rat :=
  let core : List Char → Option Rat := fun body =>
    match splitOnChar '.' body with
    | [ip] => (parseDigits ip).map (fun n => (n : Rat))
    | [ip, fp] =>
      match parseDigits ip, parseDigits fp with
      | some i, some f => some ((i : Rat) + (f : Rat) / ((10 : Rat) ^ fp.length))
      | _, _ => none
    | _ => none
  match s.data with
  | '-' :: rest => (core rest).map (fun q => -q)
  | cs => core cs

/-- Modelled from the spec: `pd.to_numeric(-, errors="coerce")`: numbers pass
through, numeric strings parse, anything else (including null) becomes null. -/
def toNumeric : Json → Option Rat
  | .num q => some q
  | .str s => parseRat s
  | .null => none

/-- Modelled from the spec: the weather-code coercion
`pd.to_numeric(-, errors="coerce").astype("Int64")`: non-numeric becomes
null, integral numerics cast to integer (the API's weathercode field is
always integral). -/
def toInt64 (j : Json) : Option Int :=
  (toNumeric j).bind (fun q => if q.den = 1 then some q.num else none)

/-! ## Data model -/

/-- One entry of the `LOCATIONS` registry. -/
structure Location where
  latitude : Rat
  longitude : Rat
  timezone : String
  continent : String
  city : String
deriving DecidableEq, Repr

/-- The raw `current_weather` payload (a well-formed one carries the four
documented fields; its `time` field is a JSON string per the API schema). -/
structure Obs where
  time : String
  temperature : Json
  windspeed : Json
  weathercode : Json
deriving DecidableEq, Repr

/-- One SQL row of `weather_records`; every column is nullable at the SQL
level (`NOT NULL` is enforced by the insert, not by the row type). -/
structure Row where
  timestamp : Option DateTime
  temperature_celsius : Option Rat
  windspeed_ms : Option Rat
  weather_code : Option Int
  latitude : Option Rat
  longitude : Option Rat
  timezone : Option String
  continent : Option String
  city : Option String
  ingestion_timestamp : Option String
deriving DecidableEq, Repr

/-- Declared shape of the `weather_records` table. -/
structure TableSchema where
  columns : List String
  notNull : List String
  primaryKey : List String
deriving DecidableEq, Repr

/-- The schema issued by `create_weather_table` (lines 78-92 of the source). -/
def weatherSchema : TableSchema :=
  { columns := ["timestamp", "temperature_celsius", "windspeed_ms", "weather_code",
                "latitude", "longitude", "timezone", "continent", "city",
                "ingestion_timestamp"],
    notNull := ["timestamp", "latitude", "longitude"],
    primaryKey := ["timestamp", "latitude", "longitude"] }

/-- The constraint-free schema `pandas.to_sql` would infer if it had to
create the table itself (same columns, no primary key, no NOT NULL). -/
def inferredSchema : TableSchema :=
  { columns := weatherSchema.columns, notNull := [], primaryKey := [] }

/-- The SQLite database file reduced to its one table: schema (if the table
exists) and stored rows in insertion order. -/
structure DB where
  schema : Option TableSchema
  rows : List Row
deriving DecidableEq, Repr

def emptyDB : DB := { schema := none, rows := [] }

/-- The composite primary-key tuple of a row: `(timestamp, latitude,
longitude)`, the key columns of `weatherSchema`. -/
def pkOf (r : Row) : Option DateTime × Option Rat × Option Rat :=
  (r.timestamp, r.latitude, r.longitude)

/-- SQLite's integrity check for one row against `weather_records`: a
`NOT NULL` violation on a declared not-null column, or a duplicate of the
composite primary key when the schema declares one.  (The only schemas that
arise are `weatherSchema` and `inferredSchema`, whose constrained columns
are exactly the three tested here.) -/
def violatesConstraints (sch : TableSchema) (rows : List Row) (r : Row) : Bool :=
  (sch.notNull.contains "timestamp" && r.timestamp.isNone) ||
  (sch.notNull.contains "latitude" && r.latitude.isNone) ||
  (sch.notNull.contains "longitude" && r.longitude.isNone) ||
  (!sch.primaryKey.isEmpty && rows.any (fun r0 => decide (pkOf r0 = pkOf r)))

/-- Insert the rows of one DataFrame sequentially; any integrity violation
rolls the whole statement back (`none` = `sqlite3.IntegrityError`). -/
def insertAll (sch : TableSchema) (rows : List Row) : List Row → Option (List Row)
  | [] => some rows
  | r :: rest =>
    if violatesConstraints sch rows r then none
    else insertAll sch (rows ++ [r]) rest

/-! ## Log entries and trace events -/

/-- One `print` line of the script, one constructor per call site. -/
inductive LogEntry where
  | startPipeline
  | tableProcessed
  | warnMissingField (lat lon : Rat)
  | httpErrorLog (lat lon : Rat) (status : Nat) (body : String)
  | requestErrorLog (lat lon : Rat) (msg : String)
  | storeErrorLog (msg : String)
  | skipLoc (city : String)
  | summaryEv (count : Nat)
  | mainErrorLog
  | connClosedLog
deriving DecidableEq, Repr

/-- Externally visible actions of the driver loop, in program order. -/
inductive Event where
  | fetchEv (idx : Nat)
  | sleepEv
  | storeEv (idx : Nat)
deriving DecidableEq, Repr

def isSleep : Event → Bool
  | .sleepEv => true
  | _ => false

def isFetchOrSleep : Event → Bool
  | .fetchEv _ => true
  | .sleepEv => true
  | .storeEv _ => false

def fetchIdx : Event → Option Nat
  | .fetchEv i => some i
  | _ => none

/-! ## fetch_current_weather -/

/-- Outcome of the one outbound `requests.get`: a transport-level failure
(`requests.exceptions.RequestException`) or an HTTP response with its status,
body text, and the parsed body's optional `current_weather` field. -/
inductive HttpResult where
  | transportError (msg : String)
  | response (status : Nat) (text : String) (current_weather : Option Obs)

/-- `response.raise_for_status()` raises `HTTPError` exactly for 4xx/5xx. -/
def raisesForStatus (status : Nat) : Bool :=
  400 ≤ status && status < 600

/-- Embedding of `fetch_current_weather` (source lines 43-71): returns the
`current_weather` payload or `none`, together with the lines it prints. -/
def fetch_current_weather (lat lon : Rat) (tz : String) (net : HttpResult) :
    Option Obs × List LogEntry :=
  match net with
  | .transportError msg => (none, [.requestErrorLog lat lon msg])
  | .response status text cw =>
    if raisesForStatus status then (none, [.httpErrorLog lat lon status text])
    else
      match cw with
      | some o => (some o, [])
      | none => (none, [.warnMissingField lat lon])

/-- The observation `fetch_current_weather` returns, as a function of the
network outcome alone (latitude/longitude/timezone only affect the log). -/
def fetchObs : HttpResult → Option Obs
  | .transportError _ => none
  | .response s _ cw => if raisesForStatus s then none else cw

def fetchProduces (net : HttpResult) : Bool :=
  (fetchObs net).isSome

/-! ## create_weather_table and store_weather_data -/

/-- Embedding of `create_weather_table` (source lines 73-99):
`CREATE TABLE IF NOT EXISTS weather_records (...)` plus the success print.
(The `sqlite3.Error` branch of the source is unreachable in this model:
issuing CREATE IF NOT EXISTS on the one-table store cannot fail.) -/
def create_weather_table (db : DB) : DB × List LogEntry :=
  match db.schema with
  | none => ({ schema := some weatherSchema, rows := db.rows }, [.tableProcessed])
  | some _ => (db, [.tableProcessed])

/-- Embedding of `store_weather_data` (source lines 101-121).  `fault`
injects an environmental `sqlite3.Error` other than `IntegrityError`
(locked database, I/O error) hitting the `to_sql` call; such an error leaves
the table unchanged (the statement rolls back) and is printed.  The strftime
conversions of lines 109-113 are identity on this representation (a row
already stores its timestamp values).  On an `IntegrityError` the clause
`except sqlite3.IntegrityError: pass` swallows the failure with no print.
If the table is absent, `to_sql(if_exists="append")` creates it with the
inferred constraint-free schema before inserting. -/
def store_weather_data (df : List Row) (db : DB) (fault : Option String) :
    DB × List LogEntry :=
  if df.isEmpty then (db, [])
  else
    match fault with
    | some msg => (db, [.storeErrorLog msg])
    | none =>
      match db.schema with
      | none => ({ schema := some inferredSchema, rows := db.rows ++ df }, [])
      | some sch =>
        match insertAll sch db.rows df with
        | some rows' => ({ schema := some sch, rows := rows' }, [])
        | none => (db, [])

/-! ## Normalization (the DataFrame column assignments of main, lines 139-157) -/

/-- The normalized record built inside `main` for one observation: each
measurement column is an independent coercion of its raw field; coordinates,
labels and the ingestion timestamp are attached unchanged. -/
def normalizeRecord (obs : Obs) (loc : Location) (ing : String) : Row :=
  { timestamp := parseDateTime obs.time
    temperature_celsius := toNumeric obs.temperature
    windspeed_ms := toNumeric obs.windspeed
    weather_code := toInt64 obs.weathercode
    latitude := some loc.latitude
    longitude := some loc.longitude
    timezone := some loc.timezone
    continent := some loc.continent
    city := some loc.city
    ingestion_timestamp := some ing }

/-! ## The driver (main, source lines 124-171) -/

/-- The world the one pipeline run interacts with: the pre-existing database
file, whether `sqlite3.connect` raises, the network outcome and ingestion
timestamp and injected storage fault per location index, and an optional
location index at which an unexpected top-level exception is raised. -/
structure Env where
  initialDb : DB
  connectFails : Bool
  net : Nat → HttpResult
  ingestion : Nat → String
  storeFault : Nat → Option String
  raiseAt : Option Nat

structure LoopState where
  db : DB
  log : List LogEntry
  trace : List Event
  count : Nat

/-- One iteration of the `for loc in LOCATIONS` loop: fetch, the fixed
`time.sleep(0.1)`, then — when the fetch produced a (truthy, i.e. present)
payload — normalize and store and bump `records_processed`, else print the
skip line. -/
def stepLocation (env : Env) (idx : Nat) (loc : Location) (s : LoopState) : LoopState :=
  let fr := fetch_current_weather loc.latitude loc.longitude loc.timezone (env.net idx)
  let s1 : LoopState :=
    { s with log := s.log ++ fr.2, trace := s.trace ++ [.fetchEv idx, .sleepEv] }
  match fr.1 with
  | some obs =>
    let row := normalizeRecord obs loc (env.ingestion idx)
    let st := store_weather_data [row] s1.db (env.storeFault idx)
    { s1 with db := st.1, log := s1.log ++ st.2,
              trace := s1.trace ++ [.storeEv idx], count := s1.count + 1 }
  | none => { s1 with log := s1.log ++ [.skipLoc loc.city] }

/-- The driver loop; `true` in the result means an unexpected exception
aborted the pass at iteration `env.raiseAt`. -/
def runLoop (env : Env) : Nat → List Location → LoopState → LoopState × Bool
  | _, [], s => (s, false)
  | idx, loc :: rest, s =>
    if env.raiseAt = some idx then (s, true)
    else runLoop env (idx + 1) rest (stepLocation env idx loc s)

structure MainResult where
  db : Option DB
  log : List LogEntry
  trace : List Event
  connClosed : Bool

/-- Embedding of `main` over an explicit registry: connect (which may
raise, leaving `conn = None`), ensure the schema, run the loop (which an
unexpected exception may abort), print the summary on the normal path or the
error line on the exceptional one, and in `finally` close the connection iff
one was opened. -/
def runPipeline (locs : List Location) (env : Env) : MainResult :=
  if env.connectFails then
    { db := none, log := [.startPipeline, .mainErrorLog], trace := [], connClosed := false }
  else
    let ct := create_weather_table env.initialDb
    let s0 : LoopState := { db := ct.1, log := [.startPipeline] ++ ct.2, trace := [], count := 0 }
    let res := runLoop env 0 locs s0
    if res.2 then
      { db := some res.1.db, log := res.1.log ++ [.mainErrorLog, .connClosedLog],
        trace := res.1.trace, connClosed := true }
    else
      { db := some res.1.db,
        log := res.1.log ++ [.summaryEv res.1.count, .connClosedLog],
        trace := res.1.trace, connClosed := true }

/-- The `LOCATIONS` registry of the source (lines 11-38). -/
def LOCATIONS : List Location :=
  [ { latitude := 34.0522, longitude := -118.2437, timezone := "America/Los_Angeles",
      continent := "North America", city := "Los Angeles" },
    { latitude := 40.7128, longitude := -74.0060, timezone := "America/New_York",
      continent := "North America", city := "New York" },
    { latitude := 45.4215, longitude := -75.6972, timezone := "America/Toronto",
      continent := "North America", city := "Ottawa" },
    { latitude := -23.5505, longitude := -46.6333, timezone := "America/Sao_Paulo",
      continent := "South America", city := "Sao Paulo" },
    { latitude := -33.4489, longitude := -70.6693, timezone := "America/Santiago",
      continent := "South America", city := "Santiago" },
    { latitude := 51.5074, longitude := -0.1278, timezone := "Europe/London",
      continent := "Europe", city := "London" },
    { latitude := 48.8566, longitude := 2.3522, timezone := "Europe/Paris",
      continent := "Europe", city := "Paris" },
    { latitude := 52.5200, longitude := 13.4050, timezone := "Europe/Berlin",
      continent := "Europe", city := "Berlin" },
    { latitude := 35.6895, longitude := 139.6917, timezone := "Asia/Tokyo",
      continent := "Asia", city := "Tokyo" },
    { latitude := 28.7041, longitude := 77.1025, timezone := "Asia/Kolkata",
      continent := "Asia", city := "New Delhi" },
    { latitude := 39.9042, longitude := 116.4074, timezone := "Asia/Shanghai",
      continent := "Asia", city := "Beijing" },
    { latitude := -26.2041, longitude := 28.0473, timezone := "Africa/Johannesburg",
      continent := "Africa", city := "Johannesburg" },
    { latitude := 30.0444, longitude := 31.2357, timezone := "Africa/Cairo",
      continent := "Africa", city := "Cairo" },
    { latitude := -33.8688, longitude := 151.2093, timezone := "Australia/Sydney",
      continent := "Australia", city := "Sydney" },
    { latitude := -36.8485, longitude := 174.7633, timezone := "Pacific/Auckland",
      continent := "Australia", city := "Auckland" } ]

/-- The whole script run: `main()` iterates the fixed registry. -/
def main (env : Env) : MainResult :=
  runPipeline LOCATIONS env

/-! ## Per-iteration effects, factored for reasoning -/

/-- Database effect of one loop iteration. -/
def stepDb (env : Env) (idx : Nat) (loc : Location) (db : DB) : DB :=
  match (fetch_current_weather loc.latitude loc.longitude loc.timezone (env.net idx)).1 with
  | some obs =>
    (store_weather_data [normalizeRecord obs loc (env.ingestion idx)] db (env.storeFault idx)).1
  | none => db

/-- Log lines printed by one loop iteration (they do not depend on the
database contents: a successful or conflict-suppressed insert is silent). -/
def stepLog (env : Env) (idx : Nat) (loc : Location) : List LogEntry :=
  let fr := fetch_current_weather loc.latitude loc.longitude loc.timezone (env.net idx)
  fr.2 ++ (match fr.1 with
    | some _ =>
      match env.storeFault idx with
      | some m => [.storeErrorLog m]
      | none => []
    | none => [.skipLoc loc.city])

/-- Events emitted by one loop iteration. -/
def stepTrace (env : Env) (idx : Nat) (loc : Location) : List Event :=
  [.fetchEv idx, .sleepEv] ++
    (match (fetch_current_weather loc.latitude loc.longitude loc.timezone (env.net idx)).1 with
     | some _ => [.storeEv idx]
     | none => [])

/-- Increment of `records_processed` in one loop iteration. -/
def stepCount (env : Env) (idx : Nat) (loc : Location) : Nat :=
  match (fetch_current_weather loc.latitude loc.longitude loc.timezone (env.net idx)).1 with
  | some _ => 1
  | none => 0

def passDb (env : Env) : Nat → List Location → DB → DB
  | _, [], db => db
  | idx, loc :: rest, db => passDb env (idx + 1) rest (stepDb env idx loc db)

def passLog (env : Env) : Nat → List Location → List LogEntry
  | _, [] => []
  | idx, loc :: rest => stepLog env idx loc ++ passLog env (idx + 1) rest

def passTrace (env : Env) : Nat → List Location → List Event
  | _, [] => []
  | idx, loc :: rest => stepTrace env idx loc ++ passTrace env (idx + 1) rest

def passCount (env : Env) : Nat → List Location → Nat
  | _, [] => 0
  | idx, loc :: rest => stepCount env idx loc + passCount env (idx + 1) rest

/-! ## Predicates used in the claim statements -/

/-- Every pair of rows differs on the composite primary-key tuple. -/
def keysUnique (rows : List Row) : Prop :=
  List.Pairwise (fun a b => pkOf a ≠ pkOf b) rows

/-- The three key columns of a row are non-null. -/
def nonNullKey (r : Row) : Prop :=
  r.timestamp ≠ none ∧ r.latitude ≠ none ∧ r.longitude ≠ none

/-- HTTP statuses this endpoint actually serves to the caller: success
(2xx) or error (4xx/5xx).  1xx is consumed by the transport and 3xx is
followed by `requests` before `fetch_current_weather` sees a response. -/
def validStatus : HttpResult → Prop
  | .transportError _ => True
  | .response s _ _ => (200 ≤ s ∧ s < 300) ∨ (400 ≤ s ∧ s < 600)

/-- The one success case of the fetch contract: HTTP 2xx and the body
carries the `current_weather` field. -/
def succeedsWith (net : HttpResult) : Prop :=
  ∃ s t o, net = .response s t (some o) ∧ 200 ≤ s ∧ s < 300

/-- `create_weather_table` iterated `n` times (state part only). -/
def createIter : Nat → DB → DB
  | 0, db => db
  | n + 1, db => createIter n (create_weather_table db).1

/-! ## Concrete fixtures for witnesses and counterexamples -/

/-- A run in which every request fails at the transport level. -/
def env0 : Env :=
  { initialDb := emptyDB, connectFails := false,
    net := fun _ => .transportError "boom",
    ingestion := fun _ => "ing", storeFault := fun _ => none, raiseAt := none }

def locA : Location :=
  { latitude := 3, longitude := -4, timezone := "tz",
    continent := "cont", city := "cityA" }

/-- A well-formed observation with a parseable time. -/
def obsA : Obs :=
  { time := "2024-01-02T03:04", temperature := .num 5,
    windspeed := .num 6, weathercode := .num 3 }

/-- An observation whose time string does not parse and whose temperature
is non-numeric. -/
def obsBad : Obs :=
  { time := "garbage", temperature := .str "abc",
    windspeed := .num 6, weathercode := .num 3 }

/-- A run where every location receives the same successful response. -/
def envC6 : Env :=
  { initialDb := emptyDB, connectFails := false,
    net := fun _ => .response 200 "" (some obsA),
    ingestion := fun _ => "t0", storeFault := fun _ => none, raiseAt := none }

/-- A run where the first location's fetch succeeds and every later one
fails at the transport level. -/
def envC5 : Env :=
  { initialDb := emptyDB, connectFails := false,
    net := fun i => if i = 0 then .response 200 "" (some obsA) else .transportError "e",
    ingestion := fun _ => "t0", storeFault := fun _ => none, raiseAt := none }

/-- A run interrupted by an unexpected exception at iteration 3. -/
def envC9 : Env :=
  { initialDb := emptyDB, connectFails := false,
    net := fun _ => .transportError "boom",
    ingestion := fun _ => "ing", storeFault := fun _ => none, raiseAt := some 3 }

/-- The environment of one mocked single-location run: a fixed successful
response carrying `obs`, no faults. -/
def singleRunEnv (db0 : DB) (obs : Obs) (ing : Nat → String) : Env :=
  { initialDb := db0, connectFails := false,
    net := fun _ => .response 200 "" (some obs),
    ingestion := ing, storeFault := fun _ => none, raiseAt := none }

/-- Expected database after one single-location run from an empty store. -/
def firstRunDb (loc : Location) (obs : Obs) (ing : Nat → String) : DB :=
  { schema := some weatherSchema, rows := [normalizeRecord obs loc (ing 0)] }

/-- A table holding one normalized row, for conflict fixtures. -/
def dbB : DB :=
  { schema := some weatherSchema, rows := [normalizeRecord obsA locA "i1"] }

/-- The database `envC6`'s two-identical-locations run ends with: both
fetches succeed but the second insert is a duplicate key, so one row. -/
def dbW : DB :=
  { schema := some weatherSchema, rows := [normalizeRecord obsA locA "t0"] }

/-! # Lemmas -/

/-- The observation returned by the fetch depends only on the network
outcome. -/
theorem fetch_fst (lat lon : Rat) (tz : String) (net : HttpResult) :
    (fetch_current_weather lat lon tz net).1 = fetchObs net := by
  cases net with
  | transportError m => rfl
  | response s t cw =>
    by_cases h : raisesForStatus s
    · simp [fetch_current_weather, fetchObs, h]
    · cases cw <;> simp [fetch_current_weather, fetchObs, h]

/-- The log of a nonempty-DataFrame store depends only on the injected
fault: success and suppressed integrity errors are both silent. -/
theorem store_snd (r : Row) (df : List Row) (db : DB) (fault : Option String) :
    (store_weather_data (r :: df) db fault).2 =
      (match fault with
       | some m => [LogEntry.storeErrorLog m]
       | none => []) := by
  cases fault with
  | some m => rfl
  | none =>
    simp only [store_weather_data, List.isEmpty_cons]
    cases h : db.schema with
    | none => simp [h]
    | some sch =>
      simp only [h]
      cases h2 : insertAll sch db.rows (r :: df) <;> simp [h2]

/-- `create_weather_table` prints its success line in either branch. -/
theorem create_snd (db : DB) :
    (create_weather_table db).2 = [LogEntry.tableProcessed] := by
  cases h : db.schema <;> simp [create_weather_table, h]

theorem create_fst_none (db : DB) (h : db.schema = none) :
    (create_weather_table db).1 = { schema := some weatherSchema, rows := db.rows } := by
  simp [create_weather_table, h]

theorem create_fst_some (db : DB) (sch : TableSchema) (h : db.schema = some sch) :
    (create_weather_table db).1 = db := by
  simp [create_weather_table, h]

/-- One loop iteration, decomposed into its database, log, trace and
counter effects. -/
theorem stepLocation_eq (env : Env) (idx : Nat) (loc : Location) (s : LoopState) :
    stepLocation env idx loc s =
      { db := stepDb env idx loc s.db,
        log := s.log ++ stepLog env idx loc,
        trace := s.trace ++ stepTrace env idx loc,
        count := s.count + stepCount env idx loc } := by
  simp only [stepLocation, stepDb, stepLog, stepTrace, stepCount]
  cases h : (fetch_current_weather loc.latitude loc.longitude loc.timezone (env.net idx)).1 with
  | none => simp [h]
  | some obs => simp [h, store_snd, List.append_assoc]

/-- Master lemma for an uninterrupted pass: the loop appends the per-pass
log, trace and count and folds the per-pass database effect. -/
theorem runLoop_eq_pass (env : Env) (h : env.raiseAt = none) :
    ∀ (locs : List Location) (idx : Nat) (s : LoopState),
      runLoop env idx locs s =
        ({ db := passDb env idx locs s.db,
           log := s.log ++ passLog env idx locs,
           trace := s.trace ++ passTrace env idx locs,
           count := s.count + passCount env idx locs }, false) := by
  intro locs
  induction locs with
  | nil => intro idx s; simp [runLoop, passDb, passLog, passTrace, passCount]
  | cons loc rest ih =>
    intro idx s
    rw [runLoop]
    have hne : ¬ env.raiseAt = some idx := by simp [h]
    rw [if_neg hne, ih (idx + 1) (stepLocation env idx loc s), stepLocation_eq]
    simp [passDb, passLog, passTrace, passCount, List.append_assoc, Nat.add_assoc]

/-- The loop state `main` starts the pass from. -/
def initState (env : Env) : LoopState :=
  { db := (create_weather_table env.initialDb).1,
    log := [LogEntry.startPipeline] ++ (create_weather_table env.initialDb).2,
    trace := [], count := 0 }

/-- An uninterrupted run of the whole pipeline, fully decomposed. -/
theorem runPipeline_normal (locs : List Location) (env : Env)
    (hc : env.connectFails = false) (hr : env.raiseAt = none) :
    runPipeline locs env =
      { db := some (passDb env 0 locs (create_weather_table env.initialDb).1),
        log := [LogEntry.startPipeline] ++ (create_weather_table env.initialDb).2 ++
               passLog env 0 locs ++
               [LogEntry.summaryEv (passCount env 0 locs), LogEntry.connClosedLog],
        trace := passTrace env 0 locs,
        connClosed := true } := by
  simp [runPipeline, hc, runLoop_eq_pass env hr, List.append_assoc]

/-- Whatever happens inside the loop, the final database is the loop
state's database. -/
theorem runPipeline_db (locs : List Location) (env : Env)
    (hc : env.connectFails = false) :
    (runPipeline locs env).db = some ((runLoop env 0 locs (initState env)).1.db) := by
  simp only [runPipeline, hc, initState, Bool.false_eq_true, if_false]
  split <;> rfl

/-- Whatever happens inside the loop, the final trace is the loop state's
trace. -/
theorem runPipeline_trace (locs : List Location) (env : Env)
    (hc : env.connectFails = false) :
    (runPipeline locs env).trace = (runLoop env 0 locs (initState env)).1.trace := by
  simp only [runPipeline, hc, initState, Bool.false_eq_true, if_false]
  split <;> rfl

/-- Once the connection opened, every exit path closes it. -/
theorem runPipeline_connClosed (locs : List Location) (env : Env)
    (hc : env.connectFails = false) :
    (runPipeline locs env).connClosed = true := by
  simp only [runPipeline, hc, Bool.false_eq_true, if_false]
  split <;> rfl

/-- Log shape of an aborted run. -/
theorem runPipeline_log_abort (locs : List Location) (env : Env)
    (hc : env.connectFails = false) (ha : (runLoop env 0 locs (initState env)).2 = true) :
    (runPipeline locs env).log =
      (runLoop env 0 locs (initState env)).1.log ++
        [LogEntry.mainErrorLog, LogEntry.connClosedLog] := by
  simp only [runPipeline, hc, initState, Bool.false_eq_true, if_false] at *
  rw [if_pos ha]

/-! ## Pass-level structure lemmas -/

/-- The fetch indices appearing in a pass trace, in order: one per
location, consecutively. -/
theorem passTrace_filterMap (env : Env) :
    ∀ (locs : List Location) (idx : Nat),
      (passTrace env idx locs).filterMap fetchIdx = List.range' idx locs.length := by
  intro locs
  induction locs with
  | nil => intro idx; rfl
  | cons loc rest ih =>
    intro idx
    rw [passTrace, List.length_cons, List.range'_succ, List.filterMap_append, ih (idx + 1)]
    simp only [stepTrace]
    cases h : (fetch_current_weather loc.latitude loc.longitude loc.timezone (env.net idx)).1 <;>
      simp [fetchIdx]

/-- Keeping only fetch and sleep events, a pass is the alternation
fetch-then-sleep, one pair per location. -/
theorem passTrace_filter_fetchSleep (env : Env) :
    ∀ (locs : List Location) (idx : Nat),
      (passTrace env idx locs).filter isFetchOrSleep =
        (List.range' idx locs.length).flatMap (fun i => [Event.fetchEv i, Event.sleepEv]) := by
  intro locs
  induction locs with
  | nil => intro idx; rfl
  | cons loc rest ih =>
    intro idx
    rw [passTrace, List.length_cons, List.range'_succ, List.filter_append, ih (idx + 1),
        List.flatMap_cons]
    congr 1
    simp only [stepTrace]
    cases h : (fetch_current_weather loc.latitude loc.longitude loc.timezone (env.net idx)).1 <;>
      simp [isFetchOrSleep]

/-- A pass over `locs` pauses exactly `locs.length` times. -/
theorem passTrace_sleeps (env : Env) :
    ∀ (locs : List Location) (idx : Nat),
      (passTrace env idx locs).countP isSleep = locs.length := by
  intro locs
  induction locs with
  | nil => intro idx; rfl
  | cons loc rest ih =>
    intro idx
    rw [passTrace, List.countP_append, ih (idx + 1)]
    have hstep : (stepTrace env idx loc).countP isSleep = 1 := by
      simp only [stepTrace]
      cases h : (fetch_current_weather loc.latitude loc.longitude loc.timezone (env.net idx)).1 <;>
        simp [isSleep, List.countP_cons]
    rw [hstep, List.length_cons, Nat.add_comm]

/-- Store events of a pass: one for index `j` exactly when location `j`
lies in the pass and its fetch produced a payload. -/
theorem mem_passTrace_store (env : Env) (j : Nat) :
    ∀ (locs : List Location) (idx : Nat),
      Event.storeEv j ∈ passTrace env idx locs ↔
        idx ≤ j ∧ j < idx + locs.length ∧ fetchProduces (env.net j) = true := by
  intro locs
  induction locs with
  | nil => intro idx; simp [passTrace]; omega
  | cons loc rest ih =>
    intro idx
    rw [passTrace, List.mem_append, ih (idx + 1)]
    have hstep : Event.storeEv j ∈ stepTrace env idx loc ↔
        j = idx ∧ fetchProduces (env.net idx) = true := by
      simp only [stepTrace, fetchProduces, ← fetch_fst loc.latitude loc.longitude loc.timezone]
      cases h : (fetch_current_weather loc.latitude loc.longitude loc.timezone (env.net idx)).1 <;>
        simp [h, eq_comm]
    rw [hstep, List.length_cons]
    constructor
    · rintro (⟨rfl, hp⟩ | ⟨h1, h2, hp⟩) <;> exact ⟨by omega, by omega, hp⟩
    · rintro ⟨h1, h2, hp⟩
      rcases Nat.eq_or_lt_of_le h1 with rfl | hlt
      · exact Or.inl ⟨rfl, hp⟩
      · exact Or.inr ⟨hlt, by omega, hp⟩

/-- A location whose fetch produced nothing gets its skip line printed. -/
theorem skip_mem_passLog (env : Env) :
    ∀ (locs : List Location) (idx : Nat) (i : Nat) (h : i < locs.length),
      fetchObs (env.net (idx + i)) = none →
      LogEntry.skipLoc ((locs.get ⟨i, h⟩).city) ∈ passLog env idx locs := by
  intro locs
  induction locs with
  | nil => intro idx i h; simp at h
  | cons loc rest ih =>
    intro idx i h hf
    rw [passLog, List.mem_append]
    cases i with
    | zero =>
      left
      simp only [stepLog, ← fetch_fst loc.latitude loc.longitude loc.timezone]
      rw [show (fetch_current_weather loc.latitude loc.longitude loc.timezone
            (env.net idx)).1 = none by rw [fetch_fst]; simpa using hf]
      simp [List.get]
    | succ i' =>
      right
      have := ih (idx + 1) i' (by simpa using Nat.lt_of_succ_lt_succ h)
        (by rw [show idx + 1 + i' = idx + (i' + 1) by omega]; exact hf)
      simpa [List.get] using this

/-- No per-iteration print is the summary line. -/
theorem summary_not_mem_stepLog (env : Env) (idx : Nat) (loc : Location) (c : Nat) :
    LogEntry.summaryEv c ∉ stepLog env idx loc := by
  simp only [stepLog]
  cases hn : env.net idx with
  | transportError m =>
    simp [fetch_current_weather]
  | response s t cw =>
    by_cases hr : raisesForStatus s
    · simp [fetch_current_weather, hr]
    · cases cw with
      | some o =>
        cases hf : env.storeFault idx <;> simp [fetch_current_weather, hr, hf]
      | none => simp [fetch_current_weather, hr]

/-- The pass itself never prints a summary line. -/
theorem summary_not_mem_passLog (env : Env) (c : Nat) :
    ∀ (locs : List Location) (idx : Nat),
      LogEntry.summaryEv c ∉ passLog env idx locs := by
  intro locs
  induction locs with
  | nil => intro idx; simp [passLog]
  | cons loc rest ih =>
    intro idx
    rw [passLog, List.mem_append]
    rintro (h | h)
    · exact summary_not_mem_stepLog env idx loc c h
    · exact ih (idx + 1) h

/-- The loop counter counts exactly the locations whose fetch produced a
payload. -/
theorem passCount_eq_countP (env : Env) :
    ∀ (locs : List Location) (idx : Nat),
      passCount env idx locs =
        (List.range' idx locs.length).countP (fun i => fetchProduces (env.net i)) := by
  intro locs
  induction locs with
  | nil => intro idx; rfl
  | cons loc rest ih =>
    intro idx
    rw [passCount, List.length_cons, List.range'_succ, List.countP_cons, ih (idx + 1)]
    have hstep : stepCount env idx loc = if fetchProduces (env.net idx) then 1 else 0 := by
      cases hob : fetchObs (env.net idx) <;>
        simp [stepCount, fetch_fst, fetchProduces, hob]
    rw [hstep]
    cases hp : fetchProduces (env.net idx) <;> simp [hp] <;> omega

/-! ## Lemmas about an interrupted pass -/

/-- An unexpected exception inside the pass makes the loop abort. -/
theorem runLoop_aborts (env : Env) (k : Nat) (h : env.raiseAt = some k) :
    ∀ (locs : List Location) (idx : Nat) (s : LoopState),
      idx ≤ k → k < idx + locs.length → (runLoop env idx locs s).2 = true := by
  intro locs
  induction locs with
  | nil => intro idx s h1 h2; simp at h2; omega
  | cons loc rest ih =>
    intro idx s h1 h2
    rw [runLoop]
    by_cases he : env.raiseAt = some idx
    · rw [if_pos he]
    · rw [if_neg he]
      have : idx ≠ k := fun heq => he (heq ▸ h)
      exact ih (idx + 1) _ (by omega) (by simp at h2; omega)

/-- The loop never prints a summary line it was not already carrying. -/
theorem summary_not_mem_runLoop (env : Env) (c : Nat) :
    ∀ (locs : List Location) (idx : Nat) (s : LoopState),
      LogEntry.summaryEv c ∉ s.log →
      LogEntry.summaryEv c ∉ (runLoop env idx locs s).1.log := by
  intro locs
  induction locs with
  | nil => intro idx s h; exact h
  | cons loc rest ih =>
    intro idx s h
    rw [runLoop]
    by_cases he : env.raiseAt = some idx
    · rw [if_pos he]; exact h
    · rw [if_neg he]
      refine ih (idx + 1) _ ?_
      rw [stepLocation_eq]
      simp only [List.mem_append]
      rintro (hm | hm)
      · exact h hm
      · exact summary_not_mem_stepLog env idx loc c hm

/-- The fetch events of one iteration. -/
theorem fetch_mem_stepTrace (env : Env) (idx : Nat) (loc : Location) (j : Nat) :
    Event.fetchEv j ∈ stepTrace env idx loc ↔ j = idx := by
  simp only [stepTrace]
  cases h : (fetch_current_weather loc.latitude loc.longitude loc.timezone (env.net idx)).1 <;>
    simp

/-- Fetch events of a possibly interrupted loop: exactly the locations
before the interruption point are fetched. -/
theorem fetch_mem_runLoop_raise (env : Env) (k : Nat) (h : env.raiseAt = some k) :
    ∀ (locs : List Location) (idx : Nat) (s : LoopState) (j : Nat),
      idx ≤ k →
      (Event.fetchEv j ∈ (runLoop env idx locs s).1.trace ↔
        Event.fetchEv j ∈ s.trace ∨ (idx ≤ j ∧ j < idx + locs.length ∧ j < k)) := by
  intro locs
  induction locs with
  | nil =>
    intro idx s j h1
    rw [runLoop]
    simp only [List.length_nil]
    constructor
    · exact Or.inl
    · rintro (hm | hm)
      · exact hm
      · omega
  | cons loc rest ih =>
    intro idx s j h1
    rw [runLoop]
    by_cases he : env.raiseAt = some idx
    · rw [if_pos he]
      have hik : idx = k := Option.some.inj (he.symm.trans h)
      constructor
      · exact Or.inl
      · rintro (hm | hm)
        · exact hm
        · omega
    · rw [if_neg he]
      have hne : idx ≠ k := fun hek => he (hek ▸ h)
      rw [ih (idx + 1) _ j (by omega), stepLocation_eq]
      simp only [List.mem_append, fetch_mem_stepTrace, List.length_cons]
      constructor
      · rintro ((hm | rfl) | ⟨h2, h3, h4⟩)
        · exact Or.inl hm
        · exact Or.inr ⟨by omega, by omega, by omega⟩
        · exact Or.inr ⟨by omega, by omega, h4⟩
      · rintro (hm | ⟨h2, h3, h4⟩)
        · exact Or.inl (Or.inl hm)
        · rcases Nat.eq_or_lt_of_le h2 with rfl | hlt
          · exact Or.inl (Or.inr rfl)
          · exact Or.inr ⟨by omega, by omega, h4⟩

/-! ## Integrity-constraint lemmas -/

/-- A row that passes the `weather_records` integrity check has non-null
key columns and collides with no stored key. -/
theorem violates_false (rows : List Row) (r : Row)
    (h : violatesConstraints weatherSchema rows r = false) :
    r.timestamp ≠ none ∧ r.latitude ≠ none ∧ r.longitude ≠ none ∧
      ∀ r0 ∈ rows, pkOf r0 ≠ pkOf r := by
  simp [violatesConstraints, weatherSchema] at h
  refine ⟨Option.isSome_iff_ne_none.mp ?_, Option.isSome_iff_ne_none.mp ?_,
    Option.isSome_iff_ne_none.mp ?_, ?_⟩ <;> tauto

/-- A primary-key collision trips the integrity check. -/
theorem violates_of_collision (rows : List Row) (r : Row)
    (hc : ∃ r0 ∈ rows, pkOf r0 = pkOf r) :
    violatesConstraints weatherSchema rows r = true := by
  simp only [violatesConstraints, weatherSchema, Bool.or_eq_true, List.any_eq_true,
    decide_eq_true_eq]
  right
  simpa using hc

/-- A null timestamp trips the `NOT NULL` integrity check. -/
theorem violates_of_null_timestamp (rows : List Row) (r : Row)
    (h : r.timestamp = none) :
    violatesConstraints weatherSchema rows r = true := by
  simp [violatesConstraints, weatherSchema, h]

/-- Append of a record whose key collides with a stored row: SQLite raises
`IntegrityError`, the handler swallows it, nothing is stored or printed. -/
theorem store_conflict_silent (db : DB) (r : Row) (h : db.schema = some weatherSchema)
    (hc : ∃ r0 ∈ db.rows, pkOf r0 = pkOf r) :
    store_weather_data [r] db none = (db, []) := by
  have hv := violates_of_collision db.rows r hc
  simp [store_weather_data, h, insertAll, hv]

/-- Append of a record with a null timestamp: the `NOT NULL` constraint
raises `IntegrityError`, silently swallowed, nothing stored or printed. -/
theorem store_nullTs_silent (db : DB) (r : Row) (h : db.schema = some weatherSchema)
    (ht : r.timestamp = none) :
    store_weather_data [r] db none = (db, []) := by
  have hv := violates_of_null_timestamp db.rows r ht
  simp [store_weather_data, h, insertAll, hv]

/-- Any other storage-layer error: the record is dropped, the table is
unchanged, and the error is printed. -/
theorem store_fault_logged (df : List Row) (r : Row) (db : DB) (msg : String) :
    store_weather_data (r :: df) db (some msg) = (db, [LogEntry.storeErrorLog msg]) := rfl

/-- Sequential insertion against `weatherSchema` preserves key
uniqueness. -/
theorem insertAll_unique :
    ∀ (df rows rows' : List Row), keysUnique rows →
      insertAll weatherSchema rows df = some rows' → keysUnique rows'
  | [], rows, rows', h, he => by
    rw [insertAll] at he
    exact (Option.some.inj he) ▸ h
  | r :: df, rows, rows', h, he => by
    rw [insertAll] at he
    by_cases hv : violatesConstraints weatherSchema rows r = true
    · rw [if_pos hv] at he; exact absurd he (by simp)
    · rw [if_neg hv] at he
      have hvf : violatesConstraints weatherSchema rows r = false := by
        revert hv; cases violatesConstraints weatherSchema rows r <;> simp
      have hnc := (violates_false rows r hvf).2.2.2
      have hu : keysUnique (rows ++ [r]) := by
        rw [keysUnique, List.pairwise_append]
        refine ⟨h, List.pairwise_singleton _ _, ?_⟩
        intro a ha b hb
        simp only [List.mem_singleton] at hb
        subst hb
        exact hnc a ha
      exact insertAll_unique df (rows ++ [r]) rows' hu he

/-- Sequential insertion against `weatherSchema` only ever adds rows whose
key columns are non-null. -/
theorem insertAll_nonNull :
    ∀ (df rows rows' : List Row), (∀ x ∈ rows, nonNullKey x) →
      insertAll weatherSchema rows df = some rows' → ∀ x ∈ rows', nonNullKey x
  | [], rows, rows', h, he => by
    rw [insertAll] at he
    exact (Option.some.inj he) ▸ h
  | r :: df, rows, rows', h, he => by
    rw [insertAll] at he
    by_cases hv : violatesConstraints weatherSchema rows r = true
    · rw [if_pos hv] at he; exact absurd he (by simp)
    · rw [if_neg hv] at he
      have hvf : violatesConstraints weatherSchema rows r = false := by
        revert hv; cases violatesConstraints weatherSchema rows r <;> simp
      obtain ⟨h1, h2, h3, -⟩ := violates_false rows r hvf
      have hall : ∀ x ∈ rows ++ [r], nonNullKey x := by
        intro x hx
        rcases List.mem_append.mp hx with hx | hx
        · exact h x hx
        · simp only [List.mem_singleton] at hx
          subst hx
          exact ⟨h1, h2, h3⟩
      exact insertAll_nonNull df (rows ++ [r]) rows' hall he

/-- `store_weather_data` keeps the schema and any row-set property that
sequential insertion preserves. -/
theorem store_preserves (db : DB) (df : List Row) (fault : Option String)
    (P : List Row → Prop)
    (hins : ∀ rows', insertAll weatherSchema db.rows df = some rows' → P rows')
    (hdb : P db.rows) (h : db.schema = some weatherSchema) :
    (store_weather_data df db fault).1.schema = some weatherSchema ∧
      P ((store_weather_data df db fault).1.rows) := by
  cases df with
  | nil => simpa [store_weather_data] using ⟨h, hdb⟩
  | cons r rest =>
    cases fault with
    | some m => simpa [store_weather_data] using ⟨h, hdb⟩
    | none =>
      simp only [store_weather_data, List.isEmpty_cons, h]
      cases hi : insertAll weatherSchema db.rows (r :: rest) with
      | none => simpa using ⟨h, hdb⟩
      | some rows' => simpa using hins rows' hi

/-- One loop iteration keeps the schema and any insertion-stable row-set
property. -/
theorem stepDb_preserves (env : Env) (idx : Nat) (loc : Location) (db : DB)
    (P : List Row → Prop)
    (hP : ∀ rows df rows', P rows → insertAll weatherSchema rows df = some rows' → P rows')
    (h : db.schema = some weatherSchema) (hdb : P db.rows) :
    (stepDb env idx loc db).schema = some weatherSchema ∧
      P ((stepDb env idx loc db).rows) := by
  simp only [stepDb]
  cases hf : (fetch_current_weather loc.latitude loc.longitude loc.timezone (env.net idx)).1 with
  | none => exact ⟨h, hdb⟩
  | some obs =>
    exact store_preserves db _ _ P (fun rows' hi => hP db.rows _ rows' hdb hi) hdb h

/-- The whole loop (interrupted or not) keeps the schema and any
insertion-stable row-set property. -/
theorem runLoop_preserves (env : Env) (P : List Row → Prop)
    (hP : ∀ rows df rows', P rows → insertAll weatherSchema rows df = some rows' → P rows') :
    ∀ (locs : List Location) (idx : Nat) (s : LoopState),
      s.db.schema = some weatherSchema → P s.db.rows →
      (runLoop env idx locs s).1.db.schema = some weatherSchema ∧
        P ((runLoop env idx locs s).1.db.rows) := by
  intro locs
  induction locs with
  | nil => intro idx s h hdb; exact ⟨h, hdb⟩
  | cons loc rest ih =>
    intro idx s h hdb
    rw [runLoop]
    by_cases he : env.raiseAt = some idx
    · rw [if_pos he]; exact ⟨h, hdb⟩
    · rw [if_neg he]
      have hs := stepDb_preserves env idx loc s.db P hP h hdb
      refine ih (idx + 1) _ ?_ ?_
      · rw [stepLocation_eq]; exact hs.1
      · rw [stepLocation_eq]; exact hs.2

/-- `raise_for_status` raises for any 4xx/5xx status. -/
theorem raisesForStatus_of_error {s : Nat} (h1 : 400 ≤ s) (h2 : s < 600) :
    raisesForStatus s = true := by
  simp only [raisesForStatus, Bool.and_eq_true, decide_eq_true_eq]
  omega

/-- `raise_for_status` does not raise on a 2xx status. -/
theorem raisesForStatus_of_2xx {s : Nat} (h2 : s < 300) :
    raisesForStatus s = false := by
  simp only [raisesForStatus, Bool.and_eq_false_iff, decide_eq_false_iff_not]
  omega

/-- Iterating `create_weather_table` on a store whose table already exists
changes nothing. -/
theorem createIter_fixed :
    ∀ (n : Nat) (db : DB) (sch : TableSchema), db.schema = some sch → createIter n db = db
  | 0, _, _, _ => rfl
  | n + 1, db, sch, h => by
    rw [createIter, create_fst_some db sch h]
    exact createIter_fixed n db sch h

/-! # Claim theorems -/

/-- C3: normalization coerces each measurement field independently: an
unparseable time string yields a null timestamp, a non-numeric temperature,
windspeed or weather code yields a null for that field, the location and
ingestion fields are attached unchanged, and each column of the normalized
record depends only on its own raw field. -/
theorem C3_normalize_coercion :
    (∀ (obs : Obs) (loc : Location) (ing : String),
       (parseDateTime obs.time = none → (normalizeRecord obs loc ing).timestamp = none) ∧
       (toNumeric obs.temperature = none →
         (normalizeRecord obs loc ing).temperature_celsius = none) ∧
       (toNumeric obs.windspeed = none → (normalizeRecord obs loc ing).windspeed_ms = none) ∧
       (toNumeric obs.weathercode = none → (normalizeRecord obs loc ing).weather_code = none) ∧
       (normalizeRecord obs loc ing).latitude = some loc.latitude ∧
       (normalizeRecord obs loc ing).longitude = some loc.longitude ∧
       (normalizeRecord obs loc ing).city = some loc.city ∧
       (normalizeRecord obs loc ing).ingestion_timestamp = some ing) ∧
    (∀ (t t' : String) (a a' w w' c c' : Json) (loc : Location) (ing : String),
       normalizeRecord ⟨t', a, w, c⟩ loc ing =
         { normalizeRecord ⟨t, a, w, c⟩ loc ing with timestamp := parseDateTime t' } ∧
       normalizeRecord ⟨t, a', w, c⟩ loc ing =
         { normalizeRecord ⟨t, a, w, c⟩ loc ing with temperature_celsius := toNumeric a' } ∧
       normalizeRecord ⟨t, a, w', c⟩ loc ing =
         { normalizeRecord ⟨t, a, w, c⟩ loc ing with windspeed_ms := toNumeric w' } ∧
       normalizeRecord ⟨t, a, w, c'⟩ loc ing =
         { normalizeRecord ⟨t, a, w, c⟩ loc ing with weather_code := toInt64 c' }) := by
  constructor
  · intro obs loc ing
    exact ⟨fun h => by simp [normalizeRecord, h],
           fun h => by simp [normalizeRecord, h],
           fun h => by simp [normalizeRecord, h],
           fun h => by simp [normalizeRecord, toInt64, h],
           rfl, rfl, rfl, rfl⟩
  · intro t t' a a' w w' c c' loc ing
    exact ⟨rfl, rfl, rfl, rfl⟩

/-- Witness for C3 at a concrete observation with an unparseable time and a
non-numeric temperature: those two fields are null, the others are not. -/
theorem C3_witness :
    (normalizeRecord obsBad locA "i").timestamp = none ∧
    (normalizeRecord obsBad locA "i").temperature_celsius = none ∧
    (normalizeRecord obsBad locA "i").windspeed_ms = some 6 ∧
    (normalizeRecord obsBad locA "i").weather_code = some 3 ∧
    (normalizeRecord obsBad locA "i").latitude = some locA.latitude ∧
    (normalizeRecord obsBad locA "i").ingestion_timestamp = some "i" :=
  ⟨(C3_normalize_coercion.1 obsBad locA "i").1 (by decide),
   (C3_normalize_coercion.1 obsBad locA "i").2.1 (by decide),
   by decide, by decide,
   (C3_normalize_coercion.1 obsBad locA "i").2.2.2.2.1,
   (C3_normalize_coercion.1 obsBad locA "i").2.2.2.2.2.2.2⟩

/-- C4: the fetch contract.  A transport failure is logged and yields
absent; a 4xx/5xx response logs status and body and yields absent; a 2xx
response with the `current_weather` field yields its contents with no log; a
2xx response without the field logs a warning and yields absent; and over
the statuses the endpoint serves, the result is absent exactly when the
request was not a 2xx-with-field success (the fetch itself is a total
function: it never raises). -/
theorem C4_fetch_contract (lat lon : Rat) (tz : String) :
    (∀ m, fetch_current_weather lat lon tz (.transportError m) =
       (none, [LogEntry.requestErrorLog lat lon m])) ∧
    (∀ s t cw, 400 ≤ s → s < 600 →
       fetch_current_weather lat lon tz (.response s t cw) =
         (none, [LogEntry.httpErrorLog lat lon s t])) ∧
    (∀ s t o, 200 ≤ s → s < 300 →
       fetch_current_weather lat lon tz (.response s t (some o)) = (some o, [])) ∧
    (∀ s t, 200 ≤ s → s < 300 →
       fetch_current_weather lat lon tz (.response s t none) =
         (none, [LogEntry.warnMissingField lat lon])) ∧
    (∀ net, validStatus net →
       ((fetch_current_weather lat lon tz net).1 = none ↔ ¬ succeedsWith net)) := by
  refine ⟨fun m => rfl, ?_, ?_, ?_, ?_⟩
  · intro s t cw h1 h2
    simp [fetch_current_weather, raisesForStatus_of_error h1 h2]
  · intro s t o h1 h2
    simp [fetch_current_weather, raisesForStatus_of_2xx h2]
  · intro s t h1 h2
    simp [fetch_current_weather, raisesForStatus_of_2xx h2]
  · intro net hv
    cases net with
    | transportError m => simp [fetch_current_weather, succeedsWith]
    | response s t cw =>
      rcases hv with ⟨h1, h2⟩ | ⟨h1, h2⟩
      · cases cw with
        | some o =>
          simp only [fetch_current_weather, raisesForStatus_of_2xx h2, Bool.false_eq_true,
            if_false]
          constructor
          · intro h; cases h
          · intro h; exact absurd ⟨s, t, o, rfl, h1, h2⟩ h
        | none =>
          simp only [fetch_current_weather, raisesForStatus_of_2xx h2, Bool.false_eq_true,
            if_false]
          constructor
          · rintro - ⟨s', t', o', heq, -, -⟩; cases heq
          · intro h; trivial
      · simp only [fetch_current_weather, raisesForStatus_of_error h1 h2, if_true]
        constructor
        · rintro - ⟨s', t', o', heq, hs1, hs2⟩
          cases heq
          omega
        · intro h; trivial

/-- Witness for C4 at concrete network outcomes: one per contract case. -/
theorem C4_witness :
    fetch_current_weather 1 2 "t" (.transportError "x") =
      (none, [LogEntry.requestErrorLog 1 2 "x"]) ∧
    fetch_current_weather 1 2 "t" (.response 500 "err" none) =
      (none, [LogEntry.httpErrorLog 1 2 500 "err"]) ∧
    fetch_current_weather 1 2 "t" (.response 200 "" (some obsA)) = (some obsA, []) ∧
    fetch_current_weather 1 2 "t" (.response 200 "" none) =
      (none, [LogEntry.warnMissingField 1 2]) ∧
    ((fetch_current_weather 1 2 "t" (.response 200 "" (some obsA))).1 = none ↔
      ¬ succeedsWith (.response 200 "" (some obsA))) :=
  ⟨(C4_fetch_contract 1 2 "t").1 "x",
   (C4_fetch_contract 1 2 "t").2.1 500 "err" none (by omega) (by omega),
   (C4_fetch_contract 1 2 "t").2.2.1 200 "" obsA (by omega) (by omega),
   (C4_fetch_contract 1 2 "t").2.2.2.1 200 "" (by omega) (by omega),
   (C4_fetch_contract 1 2 "t").2.2.2.2 (.response 200 "" (some obsA))
     (Or.inl ⟨by omega, by omega⟩)⟩

/-- C7: schema creation is idempotent: a second invocation leaves the store
unchanged, and any `n ≥ 1` invocations starting from an empty store leave
exactly the one `weather_records` table with the defined columns and the
composite primary key `(timestamp, latitude, longitude)`, identical to the
store after the first call. -/
theorem C7_schema_idempotent :
    (∀ db : DB,
       (create_weather_table (create_weather_table db).1).1 = (create_weather_table db).1) ∧
    (∀ n, 1 ≤ n →
       createIter n emptyDB = { schema := some weatherSchema, rows := [] } ∧
       createIter n emptyDB = createIter 1 emptyDB) ∧
    weatherSchema.primaryKey = ["timestamp", "latitude", "longitude"] ∧
    weatherSchema.columns = ["timestamp", "temperature_celsius", "windspeed_ms",
      "weather_code", "latitude", "longitude", "timezone", "continent", "city",
      "ingestion_timestamp"] := by
  refine ⟨?_, ?_, rfl, rfl⟩
  · intro db
    cases h : db.schema with
    | none => rw [create_fst_none db h]; exact create_fst_some _ weatherSchema rfl
    | some sch => rw [create_fst_some db sch h]; exact create_fst_some db sch h
  · intro n hn
    cases n with
    | zero => omega
    | succ m =>
      have h1 : (create_weather_table emptyDB).1 =
          { schema := some weatherSchema, rows := [] } := create_fst_none emptyDB rfl
      constructor
      · rw [createIter, h1]; exact createIter_fixed m _ weatherSchema rfl
      · rw [createIter, h1, createIter_fixed m _ weatherSchema rfl, createIter, createIter, h1]

/-- Witness for C7 at `n = 3`. -/
theorem C7_witness :
    createIter 3 emptyDB = { schema := some weatherSchema, rows := [] } ∧
    createIter 3 emptyDB = createIter 1 emptyDB :=
  C7_schema_idempotent.2.1 3 (by omega)

/-- C2: a primary-key conflict on append is silently discarded — the table
and the log are unchanged; any other storage-layer error is logged with the
record dropped and the table unchanged. -/
theorem C2_append_error_handling :
    (∀ (db : DB) (r : Row), db.schema = some weatherSchema →
       (∃ r0 ∈ db.rows, pkOf r0 = pkOf r) →
       store_weather_data [r] db none = (db, [])) ∧
    (∀ (df : List Row) (r : Row) (db : DB) (msg : String),
       store_weather_data (r :: df) db (some msg) = (db, [LogEntry.storeErrorLog msg])) :=
  ⟨fun db r h hc => store_conflict_silent db r h hc,
   fun df r db msg => store_fault_logged df r db msg⟩

/-- Witness for C2: a colliding insert into the one-row table is a silent
no-op; an injected storage error is logged and changes nothing. -/
theorem C2_witness :
    store_weather_data [normalizeRecord obsA locA "i2"] dbB none = (dbB, []) ∧
    store_weather_data [normalizeRecord obsA locA "i2"] dbB (some "disk I O error") =
      (dbB, [LogEntry.storeErrorLog "disk I O error"]) :=
  ⟨C2_append_error_handling.1 dbB (normalizeRecord obsA locA "i2") rfl
     ⟨normalizeRecord obsA locA "i1", by simp [dbB], rfl⟩,
   C2_append_error_handling.2 [] (normalizeRecord obsA locA "i2") dbB "disk I O error"⟩

/-- C5: an uninterrupted pass fetches every location of the registry
exactly once, in order; a location whose fetch returns absent gets no store
event but does get its skip warning printed, and every location is still
fetched regardless of the other locations' fetch or storage outcomes. -/
theorem C5_driver_continues (locs : List Location) (env : Env)
    (hc : env.connectFails = false) (hr : env.raiseAt = none) :
    ((runPipeline locs env).trace.filterMap fetchIdx = List.range' 0 locs.length) ∧
    (∀ i (h : i < locs.length), fetchObs (env.net i) = none →
       Event.storeEv i ∉ (runPipeline locs env).trace ∧
       LogEntry.skipLoc ((locs.get ⟨i, h⟩).city) ∈ (runPipeline locs env).log) := by
  rw [runPipeline_normal locs env hc hr]
  refine ⟨passTrace_filterMap env locs 0, ?_⟩
  intro i h hf
  constructor
  · intro hm
    have hp := ((mem_passTrace_store env i locs 0).mp hm).2.2
    rw [fetchProduces, hf] at hp
    simp at hp
  · have hs := skip_mem_passLog env locs 0 i h (by simpa using hf)
    simp only [List.mem_append]
    exact Or.inl (Or.inr hs)

/-- Witness for C5 on a two-location registry whose second fetch fails. -/
theorem C5_witness :
    ((runPipeline [locA, locA] envC5).trace.filterMap fetchIdx =
       List.range' 0 [locA, locA].length) ∧
    (Event.storeEv 1 ∉ (runPipeline [locA, locA] envC5).trace ∧
     LogEntry.skipLoc locA.city ∈ (runPipeline [locA, locA] envC5).log) :=
  ⟨(C5_driver_continues [locA, locA] envC5 rfl rfl).1,
   (C5_driver_continues [locA, locA] envC5 rfl rfl).2 1 (by decide) (by decide)⟩

/-- C6: the summary line printed after an uninterrupted pass reports
exactly the number of locations whose fetch produced a payload — a count
independent of how many rows the storage layer actually kept. -/
theorem C6_summary_counts_produced (locs : List Location) (env : Env)
    (hc : env.connectFails = false) (hr : env.raiseAt = none) (c : Nat) :
    LogEntry.summaryEv c ∈ (runPipeline locs env).log ↔
      c = (List.range' 0 locs.length).countP (fun i => fetchProduces (env.net i)) := by
  rw [runPipeline_normal locs env hc hr, create_snd,
      ← passCount_eq_countP env locs 0]
  have hps := summary_not_mem_passLog env c locs 0
  simp [List.mem_append, hps]

/-- Witness for C6: both fetches of the two-identical-locations run
produce a record, so the summary reports 2, while only one row is stored
(the second insert was suppressed as a duplicate key). -/
theorem C6_witness :
    LogEntry.summaryEv 2 ∈ (runPipeline [locA, locA] envC6).log ∧
    (runPipeline [locA, locA] envC6).db = some dbW :=
  ⟨(C6_summary_counts_produced [locA, locA] envC6 rfl rfl 2).mpr (by decide),
   by decide⟩

/-- C8 (amended): the driver pauses for the fixed throttle interval once
after EVERY fetch, including the final one — a pass over N locations
contains exactly N pauses, the trace alternating fetch then sleep — not
N-1 pauses. -/
theorem C8_throttle_after_each_fetch (locs : List Location) (env : Env)
    (hc : env.connectFails = false) (hr : env.raiseAt = none) :
    ((runPipeline locs env).trace.countP isSleep = locs.length) ∧
    ((runPipeline locs env).trace.filter isFetchOrSleep =
       (List.range' 0 locs.length).flatMap (fun i => [Event.fetchEv i, Event.sleepEv])) := by
  rw [runPipeline_normal locs env hc hr]
  exact ⟨passTrace_sleeps env locs 0, passTrace_filter_fetchSleep env locs 0⟩

/-- Counterexample to C8 as stated: a full pass over the 15-location
registry contains 15 pauses, not `15 - 1`: the sleep also runs after the
final fetch. -/
theorem C8_counterexample :
    (main env0).trace.countP isSleep ≠ LOCATIONS.length - 1 := by
  have h := runPipeline_normal LOCATIONS env0 rfl rfl
  simp only [main]
  rw [h]
  show (passTrace env0 0 LOCATIONS).countP isSleep ≠ LOCATIONS.length - 1
  rw [passTrace_sleeps env0 LOCATIONS 0]
  decide

/-- Witness for the amended C8 on the full registry. -/
theorem C8_witness :
    ((runPipeline LOCATIONS env0).trace.countP isSleep = LOCATIONS.length) ∧
    ((runPipeline LOCATIONS env0).trace.filter isFetchOrSleep =
       (List.range' 0 LOCATIONS.length).flatMap (fun i => [Event.fetchEv i, Event.sleepEv])) :=
  C8_throttle_after_each_fetch LOCATIONS env0 rfl rfl

/-- C9: once the connection opened, every exit path (normal or
exceptional) closes it; an unexpected exception at iteration `k` logs the
error, prints no summary, and stops the pass: exactly the locations before
`k` were fetched. -/
theorem C9_abort_and_release (env : Env) :
    (env.connectFails = false → (main env).connClosed = true) ∧
    (∀ k, env.connectFails = false → env.raiseAt = some k → k < LOCATIONS.length →
       LogEntry.mainErrorLog ∈ (main env).log ∧
       (∀ c, LogEntry.summaryEv c ∉ (main env).log) ∧
       (∀ j, Event.fetchEv j ∈ (main env).trace ↔ j < k)) := by
  constructor
  · intro hc
    exact runPipeline_connClosed LOCATIONS env hc
  · intro k hc hrk hkN
    simp only [main]
    have hab : (runLoop env 0 LOCATIONS (initState env)).2 = true :=
      runLoop_aborts env k hrk LOCATIONS 0 (initState env) (by omega) (by omega)
    have hlog := runPipeline_log_abort LOCATIONS env hc hab
    have hinit : ∀ c, LogEntry.summaryEv c ∉ (initState env).log := by
      intro c
      simp [initState, create_snd]
    refine ⟨?_, ?_, ?_⟩
    · rw [hlog]
      simp
    · intro c hm
      rw [hlog] at hm
      rcases List.mem_append.mp hm with hm | hm
      · exact summary_not_mem_runLoop env c LOCATIONS 0 (initState env) (hinit c) hm
      · simp at hm
    · intro j
      rw [runPipeline_trace LOCATIONS env hc,
          fetch_mem_runLoop_raise env k hrk LOCATIONS 0 (initState env) j (by omega)]
      simp only [initState, List.not_mem_nil, false_or]
      omega

/-- Witness for C9: the run interrupted at iteration 3 closes the
connection, logs the error, prints no summary and fetched exactly
locations 0, 1, 2. -/
theorem C9_witness :
    (main envC9).connClosed = true ∧
    LogEntry.mainErrorLog ∈ (main envC9).log ∧
    LogEntry.summaryEv 0 ∉ (main envC9).log ∧
    Event.fetchEv 2 ∈ (main envC9).trace ∧
    Event.fetchEv 3 ∉ (main envC9).trace := by
  have h2 := (C9_abort_and_release envC9).2 3 rfl rfl (by decide)
  refine ⟨(C9_abort_and_release envC9).1 rfl, h2.1, h2.2.1 0,
    (h2.2.2 2).mpr (by omega), fun hm => ?_⟩
  have := (h2.2.2 3).mp hm
  omega

/-- C1: (i) starting from a store that is empty or schema-correct with
unique keys, every pair of rows the pipeline leaves stored differs on
`(timestamp, latitude, longitude)`; (ii) a write whose key collides with a
stored row is discarded, not overwritten; (iii) running the single-location
pipeline twice with an unchanged response for the same timestamp leaves
exactly the one row of the first run — first write wins, down to its
ingestion timestamp. -/
theorem C1_primary_key_dedup :
    (∀ (locs : List Location) (env : Env),
       (env.initialDb.schema = none ∨ env.initialDb.schema = some weatherSchema) →
       keysUnique env.initialDb.rows →
       ∀ db, (runPipeline locs env).db = some db → keysUnique db.rows) ∧
    (∀ (db : DB) (r : Row), db.schema = some weatherSchema →
       (∃ r0 ∈ db.rows, pkOf r0 = pkOf r) →
       store_weather_data [r] db none = (db, [])) ∧
    (∀ (loc : Location) (obs : Obs) (d : DateTime) (ing1 ing2 : Nat → String),
       parseDateTime obs.time = some d →
       (runPipeline [loc] (singleRunEnv emptyDB obs ing1)).db =
         some (firstRunDb loc obs ing1) ∧
       (firstRunDb loc obs ing1).rows.length = 1 ∧
       (runPipeline [loc] (singleRunEnv (firstRunDb loc obs ing1) obs ing2)).db =
         some (firstRunDb loc obs ing1)) := by
  refine ⟨?_, fun db r h hc => store_conflict_silent db r h hc, ?_⟩
  · intro locs env hs hU db hdb
    cases hcc : env.connectFails with
    | true => simp [runPipeline, hcc] at hdb
    | false =>
      rw [runPipeline_db locs env hcc] at hdb
      have hdb' := Option.some.inj hdb
      subst hdb'
      have hschema : (initState env).db.schema = some weatherSchema := by
        rcases hs with h0 | h0
        · rw [initState, create_fst_none env.initialDb h0]
        · rw [initState, create_fst_some env.initialDb weatherSchema h0]
          exact h0
      have hrows : keysUnique (initState env).db.rows := by
        rcases hs with h0 | h0
        · rw [initState, create_fst_none env.initialDb h0]
          exact hU
        · rw [initState, create_fst_some env.initialDb weatherSchema h0]
          exact hU
      exact (runLoop_preserves env keysUnique
        (fun rows df rows' hu hi => insertAll_unique df rows rows' hu hi)
        locs 0 (initState env) hschema hrows).2
  · intro loc obs d ing1 ing2 hpd
    have hv1 : violatesConstraints weatherSchema []
        (normalizeRecord obs loc (ing1 0)) = false := by
      simp [violatesConstraints, weatherSchema, normalizeRecord, hpd]
    have hv2 : violatesConstraints weatherSchema [normalizeRecord obs loc (ing1 0)]
        (normalizeRecord obs loc (ing2 0)) = true :=
      violates_of_collision _ _ ⟨normalizeRecord obs loc (ing1 0), by simp, rfl⟩
    refine ⟨?_, rfl, ?_⟩
    · rw [runPipeline_db [loc] (singleRunEnv emptyDB obs ing1) rfl,
          runLoop_eq_pass (singleRunEnv emptyDB obs ing1) rfl [loc] 0 _]
      simp [initState, passDb, stepDb, singleRunEnv, fetch_current_weather, raisesForStatus,
        create_weather_table, emptyDB, store_weather_data, insertAll, hv1, firstRunDb]
    · rw [runPipeline_db [loc] (singleRunEnv (firstRunDb loc obs ing1) obs ing2) rfl,
          runLoop_eq_pass (singleRunEnv (firstRunDb loc obs ing1) obs ing2) rfl [loc] 0 _]
      simp [initState, passDb, stepDb, singleRunEnv, fetch_current_weather, raisesForStatus,
        create_weather_table, store_weather_data, insertAll, hv2, firstRunDb]

/-- Witness for C1: the two-identical-locations run leaves a key-unique
table, and the concrete single-location double run keeps exactly the first
run's row. -/
theorem C1_witness :
    keysUnique dbW.rows ∧
    ((runPipeline [locA] (singleRunEnv emptyDB obsA (fun _ => "a"))).db =
       some (firstRunDb locA obsA (fun _ => "a")) ∧
     (firstRunDb locA obsA (fun _ => "a")).rows.length = 1 ∧
     (runPipeline [locA] (singleRunEnv (firstRunDb locA obsA (fun _ => "a")) obsA
        (fun _ => "b"))).db = some (firstRunDb locA obsA (fun _ => "a"))) :=
  ⟨C1_primary_key_dedup.1 [locA, locA] envC6 (Or.inl rfl) List.Pairwise.nil dbW (by decide),
   C1_primary_key_dedup.2.2 locA obsA ⟨2024, 1, 2, 3, 4, 0⟩
     (fun _ => "a") (fun _ => "b") (by decide)⟩

/-- C10: every row the pipeline leaves stored has non-null timestamp,
latitude and longitude (given a store that starts empty or
schema-correct with that invariant), and an append whose normalized record
has a null timestamp is silently dropped: table unchanged, nothing
printed. -/
theorem C10_nonnull_keys :
    (∀ (locs : List Location) (env : Env),
       (env.initialDb.schema = none ∨ env.initialDb.schema = some weatherSchema) →
       (∀ r ∈ env.initialDb.rows, nonNullKey r) →
       ∀ db, (runPipeline locs env).db = some db → ∀ r ∈ db.rows, nonNullKey r) ∧
    (∀ (obs : Obs) (loc : Location) (ing : String) (db : DB),
       db.schema = some weatherSchema → parseDateTime obs.time = none →
       store_weather_data [normalizeRecord obs loc ing] db none = (db, [])) := by
  constructor
  · intro locs env hs hN db hdb
    cases hcc : env.connectFails with
    | true => simp [runPipeline, hcc] at hdb
    | false =>
      rw [runPipeline_db locs env hcc] at hdb
      have hdb' := Option.some.inj hdb
      subst hdb'
      have hschema : (initState env).db.schema = some weatherSchema := by
        rcases hs with h0 | h0
        · rw [initState, create_fst_none env.initialDb h0]
        · rw [initState, create_fst_some env.initialDb weatherSchema h0]
          exact h0
      have hrows : ∀ r ∈ (initState env).db.rows, nonNullKey r := by
        rcases hs with h0 | h0
        · rw [initState, create_fst_none env.initialDb h0]
          exact hN
        · rw [initState, create_fst_some env.initialDb weatherSchema h0]
          exact hN
      exact (runLoop_preserves env (fun rows => ∀ r ∈ rows, nonNullKey r)
        (fun rows df rows' hn hi => insertAll_nonNull df rows rows' hn hi)
        locs 0 (initState env) hschema hrows).2
  · intro obs loc ing db h ht
    exact store_nullTs_silent db (normalizeRecord obs loc ing) h
      (by simp [normalizeRecord, ht])

/-- Witness for C10: the stored row of the concrete run has non-null key
columns, and appending the unparseable-time record to the one-row table is
a silent no-op. -/
theorem C10_witness :
    nonNullKey (normalizeRecord obsA locA "t0") ∧
    store_weather_data [normalizeRecord obsBad locA "x"] dbB none = (dbB, []) :=
  ⟨C10_nonnull_keys.1 [locA, locA] envC6 (Or.inl rfl)
     (fun r hr => absurd hr (List.not_mem_nil r)) dbW (by decide)
     (normalizeRecord obsA locA "t0") (by simp [dbW]),
   C10_nonnull_keys.2 obsBad locA "x" dbB rfl (by decide)⟩

end Weather
